import Mathlib

/-!
Verification of `scipy/interpolate/fitpack2.py` (object-oriented FITPACK
wrapper).  The file shallowly embeds the wrapper logic of the module:
the external DIERCKX routines (`dfitpack.fpcurf0`, `fpcurf1`, `fpcurfm1`,
`surfit_smth`, `regrid_smth`, `sproot`, `bispev`, ...) are opaque to the
wrapper, so every embedded operation takes the values those routines
return (status code `ier`, knot/coefficient arrays, ...) as explicit
inputs, and the definitions below translate only the Python control flow
around the external calls.  Real-number data is modelled by rationals.
-/

/-- Python exception kinds thrown by fitpack2 wrapper code. -/
inductive PyError
  | valueError (msg : String)
  | typeError (msg : String)
  | notImplementedError (msg : String)
deriving DecidableEq

/-- How a constructor treats the status code `ier` returned by the external
fitting routine: accept silently, warn but keep the returned fit, or throw
with nothing kept. -/
inductive FitOutcome
  | accept
  | warnAccept
  | raiseErr
deriving DecidableEq

/-- `UnivariateSpline._reset_class` (fitpack2.py lines 198-220), projected to
its warn/accept behaviour: `ier == 0`, `ier == -1` and `ier == -2` pass
silently (the last two also re-tag the class, see `_reset_class` below);
every other code falls through to `warnings.warn`, with `self._data`
already assigned by the caller. -/
def univariateIerOutcome (ier : Int) : FitOutcome :=
  if ier = 0 then FitOutcome.accept
  else if ier = -1 then FitOutcome.accept
  else if ier = -2 then FitOutcome.accept
  else FitOutcome.warnAccept

/-- `SmoothBivariateSpline.__init__` (lines 1027-1031): `ier in [0,-1,-2]`
is a normal return, anything else warns; `self.fp`/`self.tck` are assigned
afterwards in every case. -/
def smoothBivariateIerOutcome (ier : Int) : FitOutcome :=
  if ier = 0 ∨ ier = -1 ∨ ier = -2 then FitOutcome.accept else FitOutcome.warnAccept

/-- `LSQBivariateSpline.__init__` (lines 1091-1099): `ier in [0,-1,-2]`
is a normal return, anything else warns (with a rank-deficiency message for
`ier < -2`); the fit is stored in every case. -/
def lsqBivariateIerOutcome (ier : Int) : FitOutcome :=
  if ier = 0 ∨ ier = -1 ∨ ier = -2 then FitOutcome.accept else FitOutcome.warnAccept

/-- `RectBivariateSpline.__init__` (lines 1158-1160): any code outside
`[0,-1,-2]` raises `ValueError` before `self.fp`/`self.tck` are assigned. -/
def rectBivariateIerOutcome (ier : Int) : FitOutcome :=
  if ier = 0 ∨ ier = -1 ∨ ier = -2 then FitOutcome.accept else FitOutcome.raiseErr

/-- `SmoothSphereBivariateSpline.__init__` (lines 1355-1357): any code
outside `[0,-1,-2]` raises `ValueError`. -/
def smoothSphereIerOutcome (ier : Int) : FitOutcome :=
  if ier = 0 ∨ ier = -1 ∨ ier = -2 then FitOutcome.accept else FitOutcome.raiseErr

/-- `LSQSphereBivariateSpline.__init__` (lines 1455-1461): `ier < -2` warns
(rank deficiency) and keeps the fit, other codes outside `[0,-1,-2]`
raise `ValueError`. -/
def lsqSphereIerOutcome (ier : Int) : FitOutcome :=
  if ier < -2 then FitOutcome.warnAccept
  else if ier = 0 ∨ ier = -1 ∨ ier = -2 then FitOutcome.accept
  else FitOutcome.raiseErr

/-- `RectSphereBivariateSpline.__init__` (lines 1679-1681): any code outside
`[0,-1,-2]` raises `ValueError`. -/
def rectSphereIerOutcome (ier : Int) : FitOutcome :=
  if ier = 0 ∨ ier = -1 ∨ ier = -2 then FitOutcome.accept else FitOutcome.raiseErr

/-- The status-code policy asserted by the specification for every fit
operation: `0`, `-1`, `-2` accepted silently, every other positive code
warns while the result is stored, and `10` raises with nothing stored. -/
def claimedStatusPartition (f : Int → FitOutcome) : Prop :=
  (∀ ier : Int, (ier = 0 ∨ ier = -1 ∨ ier = -2) → f ier = FitOutcome.accept) ∧
  (∀ ier : Int, 0 < ier → ier ≠ 10 → f ier = FitOutcome.warnAccept) ∧
  f 10 = FitOutcome.raiseErr

/-- The univariate spline classes of the module, plus a stand-in for any
user-defined subclass unknown to `_set_class`. -/
inductive SplineClass
  | univariateSpline
  | interpolatedUnivariateSpline
  | lsqUnivariateSpline
  | unknownSubclass
deriving DecidableEq

/-- `UnivariateSpline._set_class` (lines 222-229): the object is re-tagged
to `target` only when its current class is one of the three known
univariate spline classes; an unknown subclass is left alone (cf. scipy
issue 731). -/
def _set_class (current target : SplineClass) : SplineClass :=
  if current = SplineClass.univariateSpline ∨
     current = SplineClass.interpolatedUnivariateSpline ∨
     current = SplineClass.lsqUnivariateSpline
  then target else current

/-- Class re-tagging of `UnivariateSpline._reset_class` (lines 198-220):
`ier == -1` tags the object as interpolating, `ier == -2` and `ier == 1`
as least-squares, any other code leaves the class as it is. -/
def _reset_class (ier : Int) (current : SplineClass) : SplineClass :=
  if ier = 0 then current
  else if ier = -1 then _set_class current SplineClass.interpolatedUnivariateSpline
  else if ier = -2 then _set_class current SplineClass.lsqUnivariateSpline
  else if ier = 1 then _set_class current SplineClass.lsqUnivariateSpline
  else current

/-- A key of the `_extrap_modes` dictionary: Python passes either an int or
a string as the `ext` argument. -/
inductive ExtKey
  | intKey : Int → ExtKey
  | strKey : String → ExtKey
deriving DecidableEq

/-- The `_extrap_modes` dictionary (lines 64-67): canonical code for each
accepted extrapolation-mode key, `none` for a missing key (Python raises
`KeyError`, which each caller converts to `ValueError`). -/
def _extrap_modes : ExtKey → Option Nat
  | ExtKey.intKey n =>
      if n = 0 then some 0 else if n = 1 then some 1
      else if n = 2 then some 2 else if n = 3 then some 3 else none
  | ExtKey.strKey s =>
      if s = "extrapolate" then some 0 else if s = "zeros" then some 1
      else if s = "raise" then some 2 else if s = "const" then some 3 else none

/-- Construction-time resolution of `ext` in `UnivariateSpline.__init__`
(lines 173-176): a table miss becomes `ValueError`. -/
def resolveExtInit (ext : ExtKey) : Except PyError Nat :=
  match _extrap_modes ext with
  | some v => Except.ok v
  | none => Except.error (PyError.valueError "Unknown extrapolation mode")

/-- Evaluation-time resolution of the `ext` override in
`UnivariateSpline.__call__` (lines 297-303): `none` keeps the stored mode,
a present key goes through the same `_extrap_modes` table. -/
def resolveExtCall (selfExt : Nat) (ext : Option ExtKey) : Except PyError Nat :=
  match ext with
  | none => Except.ok selfExt
  | some e =>
      match _extrap_modes e with
      | some v => Except.ok v
      | none => Except.error (PyError.valueError "Unknown extrapolation mode")

/-- Externally visible events of a wrapper operation, in program order:
calls into the external fitting routine (`solverCall`), the knot-validation
routine `dfitpack.fpchec` (`fpchecCall`), assignment of the fit result to
the object (`dataStored`), and a Python exception (`raised`).  Warnings are
not traced; they never abort the operation. -/
inductive Event
  | solverCall
  | fpchecCall
  | dataStored
  | raised
deriving DecidableEq

/-- Number of calls into the external fitting routine in a trace. -/
def countSolverCalls : List Event → Nat
  | [] => 0
  | Event.solverCall :: r => countSolverCalls r + 1
  | _ :: r => countSolverCalls r

/-- Event trace of `UnivariateSpline.__init__` (lines 165-184): the `ext`
lookup raises before anything else on a bad key; otherwise `fpcurf0` runs
and, when it reports `ier == 1` (nest too small), `_reset_nest` re-invokes
`fpcurf1` with `nest` raised to its maximum bound `m+k+1` before `_data`
is stored.  `ier1` is the status code of the first solver call. -/
def univariateSplineInitTrace (extOk : Bool) (ier1 : Int) : List Event :=
  if extOk = false then [Event.raised]
  else if ier1 = 1 then [Event.solverCall, Event.solverCall, Event.dataStored]
  else [Event.solverCall, Event.dataStored]

/-- Event trace of `InterpolatedUnivariateSpline.__init__` (lines 583-599):
`fpcurf0` is called and `_data` stored first; the `ext` lookup runs last,
so a bad key raises only after the fit is already on the object. -/
def interpolatedSplineInitTrace (extOk : Bool) : List Event :=
  [Event.solverCall, Event.dataStored] ++ (if extOk then [] else [Event.raised])

/-- Event trace of `LSQUnivariateSpline.__init__` (lines 708-737): the
Schoenberg-Whitney knot ordering check raises first; then `dfitpack.fpchec`
validates and raises on rejection; then `fpcurfm1` fits and `_data` is
stored; the `ext` lookup runs last, raising after the store on a bad key. -/
def lsqSplineInitTrace (knotsOk fpchecOk extOk : Bool) : List Event :=
  if knotsOk = false then [Event.raised]
  else if fpchecOk = false then [Event.fpchecCall, Event.raised]
  else [Event.fpchecCall, Event.solverCall, Event.dataStored] ++
    (if extOk then [] else [Event.raised])

/-- Event trace of `RectBivariateSpline.__init__` (lines 1137-1164): the
shape and monotonicity checks raise before `regrid_smth`; a status code
outside `[0,-1,-2]` raises after the call, before `self.fp`/`self.tck`
are assigned. -/
def rectBivariateInitTrace (validOk : Bool) (ier : Int) : List Event :=
  if validOk = false then [Event.raised]
  else if ier = 0 ∨ ier = -1 ∨ ier = -2 then [Event.solverCall, Event.dataStored]
  else [Event.solverCall, Event.raised]

/-- Event trace of `SmoothBivariateSpline.__init__` (lines 1015-1035):
`surfit_smth` is called with `lwrk2=1`; when the returned code exceeds 10
(workspace too small) the call is repeated once with `lwrk2=ier`; the fit
is stored in every case. -/
def smoothBivariateInitTrace (ier1 : Int) : List Event :=
  (if ier1 > 10 then [Event.solverCall, Event.solverCall] else [Event.solverCall]) ++
    [Event.dataStored]

/-- Event trace of `UnivariateSpline.set_smoothing_factor` (lines 245-263):
for an LSQ spline with fixed knots (stored `s == -1`, `data[6]`) it only
warns; otherwise `fpcurf1` runs, with the same single `ier == 1` retry as
the constructor, and the new `_data` is stored. -/
def setSmoothingFactorTrace (sStored : ℚ) (ier1 : Int) : List Event :=
  if sStored = -1 then []
  else if ier1 = 1 then [Event.solverCall, Event.solverCall, Event.dataStored]
  else [Event.solverCall, Event.dataStored]

/-- A trace in which validation fails the way the specification demands:
an exception with no solver call and no stored result. -/
def raisesCleanly (tr : List Event) : Prop :=
  Event.raised ∈ tr ∧ Event.solverCall ∉ tr ∧ Event.dataStored ∉ tr

/-- The slice of `_data` relevant to the univariate spline claims:
`_data == x,y,w,xb,xe,k,s,n,t,c,fp,fpint,nrdata,ier` (line 172).  `s` is
the smoothing factor (`data[6]`, `-1` for an LSQ spline with fixed knots),
`k` the degree, `n` the knot count, `t`/`c` the knot and coefficient
arrays, `fp` the residual and `ier` the status code. -/
structure FitData where
  s : ℚ
  k : Nat
  n : Nat
  t : List ℚ
  c : List ℚ
  fp : ℚ
  ier : Int
deriving DecidableEq

/-- `UnivariateSpline.set_smoothing_factor` (lines 245-263) at the level of
the stored representation.  `fpcurf1` abstracts the external solver call on
the stored data with the new smoothing factor; `resetNest` abstracts the
`_reset_nest` retry (lines 231-243), applied once when the solver reports
`ier == 1`.  With `s == -1` stored, the method warns and returns with the
representation untouched. -/
def set_smoothing_factor (d : FitData) (s : ℚ)
    (fpcurf1 : FitData → ℚ → FitData) (resetNest : FitData → FitData) : FitData :=
  if d.s = -1 then d
  else
    let r := fpcurf1 d s
    if r.ier = 1 then resetNest r else r

/-- Knot vector assembled by `LSQUnivariateSpline.__init__` (line 723):
`t = concatenate(([xb]*(k+1), t, [xe]*(k+1)))`. -/
def lsqKnots (xb xe : ℚ) (t : List ℚ) (k : Nat) : List ℚ :=
  List.replicate (k+1) xb ++ t ++ List.replicate (k+1) xe

/-- Adjacent strict increase of a list, the content of
`alltrue(t[k+1:n-k]-t[k:n-k-1] > 0)` applied to a slice. -/
def pairwiseIncreasing : List ℚ → Bool
  | [] => true
  | [_] => true
  | a :: b :: r => decide (a < b) && pairwiseIncreasing (b :: r)

/-- The knot ordering check of `LSQUnivariateSpline.__init__` (line 725):
`alltrue(t[k+1:n-k]-t[k:n-k-1] > 0)`, i.e. strict increase along the slice
`t[k:n-k]` of the assembled knot vector. -/
def lsqKnotOrderCheck (t : List ℚ) (k n : Nat) : Bool :=
  pairwiseIncreasing ((t.drop k).take (n - k - k))

/-- `UnivariateSpline.get_knots` (lines 306-313): returns `data[8][k:n-k]`,
the knot array with `k` entries stripped from each side. -/
def get_knots (t : List ℚ) (k n : Nat) : List ℚ :=
  (t.drop k).take (n - k - k)

/-- `UnivariateSpline.get_coeffs` (lines 315-319): returns `data[9][:n-k-1]`. -/
def get_coeffs (c : List ℚ) (k n : Nat) : List ℚ :=
  c.take (n - k - 1)

/-- The coefficient slice `c[:(nx-kx-1)*(ny-ky-1)]` stored by the bivariate
constructors (lines 1034, 1163). -/
def bivariateCoeffs (c : List ℚ) (nx ny kx ky : Nat) : List ℚ :=
  c.take ((nx - kx - 1) * (ny - ky - 1))

/-- `UnivariateSpline.__call__` (lines 265-304).  `splev` abstracts the
external evaluator `fitpack.splev`; the returned `Nat` counts its
invocations.  Empty input short-circuits to an empty array before the
`ext` override is even resolved. -/
def univariateCall (selfExt : Nat) (ext : Option ExtKey) (x : List ℚ)
    (splev : List ℚ → Nat → List ℚ) : Except PyError (List ℚ) × Nat :=
  if x.length = 0 then (Except.ok [], 0)
  else
    match ext with
    | none => (Except.ok (splev x selfExt), 1)
    | some e =>
        match _extrap_modes e with
        | some v => (Except.ok (splev x v), 1)
        | none => (Except.error (PyError.valueError "Unknown extrapolation mode"), 0)

/-- Grid branch of `_BivariateSplineBase.__call__` (lines 817-828): an empty
coordinate array yields `zeros((x.size, y.size))` before the evaluator
(`bispev`/`parder`) is reached.  `ev` abstracts the external evaluator and
the second component counts its invocations. -/
def bivariateCallGrid (x y : List ℚ)
    (ev : List ℚ → List ℚ → List (List ℚ)) :
    Except PyError (List (List ℚ)) × Nat :=
  if x.length = 0 ∨ y.length = 0 then
    (Except.ok (List.replicate x.length (List.replicate y.length 0)), 0)
  else (Except.ok (ev x y), 1)

/-- Length of the numpy broadcast of two 1-D arrays, `none` when
`np.broadcast_arrays` would raise a shape mismatch. -/
def broadcastLen (m n : Nat) : Option Nat :=
  if m = n then some m
  else if m = 1 then some n
  else if n = 1 then some m
  else none

/-- Pointwise branch of `_BivariateSplineBase.__call__` (lines 829-851):
the inputs are broadcast against each other and ravelled, then an empty
size yields `zeros(shape)` before the evaluator (`bispeu`/`pardeu`) is
reached.  `ev` abstracts the external evaluator; the second component
counts its invocations. -/
def bivariateCallPoint (x y : List ℚ)
    (ev : List ℚ → List ℚ → List ℚ) : Except PyError (List ℚ) × Nat :=
  match broadcastLen x.length y.length with
  | none => (Except.error (PyError.valueError "shape mismatch"), 0)
  | some L =>
      if L = 0 then (Except.ok (List.replicate L 0), 0)
      else (Except.ok (ev x y), 1)

/-- `UnivariateSpline.roots` (lines 397-409) as a function of the degree and
of the values `z, m, ier` returned by the external root finder
`dfitpack.sproot`: only `k == 3` is supported, a nonzero `ier` raises
`ValueError`, otherwise the zeros truncated to the reported count `m` are
returned. -/
def roots (k : Nat) (z : List ℚ) (m : Nat) (ier : Int) : Except PyError (List ℚ) :=
  if k = 3 then
    if ier = 0 then Except.ok (z.take m)
    else Except.error (PyError.valueError "Error code returned by spalde")
  else Except.error (PyError.notImplementedError
    "finding roots unsupported for non-cubic splines")

/-- `roots` at the object level: the method reads `self._data[5]` and
`self._eval_args` but assigns nothing, so the state passes through. -/
def rootsOp (d : FitData) (z : List ℚ) (m : Nat) (ier : Int) :
    Except PyError (List ℚ) × FitData :=
  (roots d.k z m ier, d)

/-- `ndarray.min()` on the embedded 1-D array (meaningful for nonempty
input, as in the guarded uses below). -/
def npMin : List ℚ → ℚ
  | [] => 0
  | x :: xs => xs.foldl min x

/-- `ndarray.max()` on the embedded 1-D array. -/
def npMax : List ℚ → ℚ
  | [] => 0
  | x :: xs => xs.foldl max x

/-- `SphereBivariateSpline.__call__` (lines 1239-1248): the theta bounds
check runs only on nonempty input, then the phi bounds check, then the call
delegates to `_BivariateSplineBase.__call__` (`Except.ok ()`).  `piV`
stands for the float constant `np.pi`. -/
def sphereCall (piV : ℚ) (theta phi : List ℚ) : Except PyError Unit :=
  if 0 < theta.length ∧ (npMin theta < 0 ∨ npMax theta > piV) then
    Except.error (PyError.valueError "requested theta out of bounds.")
  else if 0 < phi.length ∧ (npMin phi < 0 ∨ npMax phi > 2 * piV) then
    Except.error (PyError.valueError "requested phi out of bounds.")
  else Except.ok ()

/-- Concrete fit data of an ordinary cubic smoothing spline, used by the
witnesses and counterexamples. -/
def dummyFitData : FitData :=
  { s := 5, k := 3, n := 8, t := [1], c := [1], fp := 1, ier := 0 }

/-- Concrete fit data of an LSQ spline with fixed knots: the sentinel
`s == -1` is what `set_smoothing_factor` tests at line 253. -/
def lsqFitData : FitData :=
  { s := -1, k := 3, n := 8, t := [], c := [], fp := 0, ier := 0 }

/-! ## Helper lemmas -/

theorem replicate_append_drop (a : ℚ) (l : List ℚ) :
    ∀ k : Nat, (List.replicate (k+1) a ++ l).drop k = a :: l
  | 0 => rfl
  | k+1 => by
    rw [List.replicate_succ, List.cons_append, List.drop_succ_cons]
    exact replicate_append_drop a l k

theorem pairwiseIncreasing_chain' :
    ∀ l : List ℚ, pairwiseIncreasing l = true → List.Chain' (· < ·) l
  | [], _ => List.chain'_nil
  | [a], _ => List.chain'_singleton a
  | a :: b :: r, h => by
    rw [pairwiseIncreasing, Bool.and_eq_true] at h
    exact List.chain'_cons.mpr
      ⟨of_decide_eq_true h.1, pairwiseIncreasing_chain' (b :: r) h.2⟩

theorem lsqKnots_length (xb xe : ℚ) (t : List ℚ) (k : Nat) :
    (lsqKnots xb xe t k).length = (k+1) + t.length + (k+1) := by
  simp [lsqKnots]
  omega

theorem lsqKnots_get_knots (xb xe : ℚ) (t : List ℚ) (k : Nat) :
    get_knots (lsqKnots xb xe t k) k (lsqKnots xb xe t k).length = xb :: (t ++ [xe]) := by
  have hn : (lsqKnots xb xe t k).length - k - k = t.length + 1 + 1 := by
    rw [lsqKnots_length]; omega
  rw [get_knots, hn, lsqKnots, List.append_assoc, replicate_append_drop,
      List.take_succ_cons, List.take_append_eq_append_take,
      List.take_of_length_le (by omega), List.take_replicate]
  have h1 : t.length + 1 - t.length = 1 := by omega
  have h2 : min 1 (k+1) = 1 := by omega
  rw [h1, h2, List.replicate_one]

theorem lsqKnots_chain_le (xb xe : ℚ) (t : List ℚ) (k : Nat)
    (h : List.Chain' (· < ·) (xb :: (t ++ [xe]))) :
    List.Chain' (· ≤ ·) (lsqKnots xb xe t k) := by
  have h1 : List.Chain' (· ≤ ·) ((xb :: t) ++ [xe]) := by
    rw [List.cons_append]
    exact h.imp fun a b hab => le_of_lt hab
  rw [lsqKnots, List.append_assoc, List.replicate_succ', List.append_assoc,
      List.singleton_append, List.chain'_split]
  refine ⟨by rw [← List.replicate_succ']; exact List.chain'_replicate_of_rel _ (le_refl xb), ?_⟩
  rw [List.replicate_succ, ← List.cons_append, List.chain'_split]
  exact ⟨h1, by rw [← List.replicate_succ]; exact List.chain'_replicate_of_rel _ (le_refl xe)⟩

theorem foldl_min_le_init (l : List ℚ) : ∀ a : ℚ, l.foldl min a ≤ a := by
  induction l with
  | nil => intro a; exact le_refl a
  | cons x xs ih => intro a; exact le_trans (ih (min a x)) (min_le_left a x)

theorem foldl_min_le_mem (l : List ℚ) : ∀ a x : ℚ, x ∈ l → l.foldl min a ≤ x := by
  induction l with
  | nil => intro a x hx; cases hx
  | cons y ys ih =>
    intro a x hx
    rcases List.mem_cons.mp hx with h | h
    · subst h; exact le_trans (foldl_min_le_init ys (min a x)) (min_le_right a x)
    · exact ih (min a y) x h

theorem foldl_max_init_le (l : List ℚ) : ∀ a : ℚ, a ≤ l.foldl max a := by
  induction l with
  | nil => intro a; exact le_refl a
  | cons x xs ih => intro a; exact le_trans (le_max_left a x) (ih (max a x))

theorem foldl_max_mem_le (l : List ℚ) : ∀ a x : ℚ, x ∈ l → x ≤ l.foldl max a := by
  induction l with
  | nil => intro a x hx; cases hx
  | cons y ys ih =>
    intro a x hx
    rcases List.mem_cons.mp hx with h | h
    · subst h; exact le_trans (le_max_right a x) (foldl_max_init_le ys (max a x))
    · exact ih (max a y) x h

theorem npMin_le_mem (l : List ℚ) (x : ℚ) (hx : x ∈ l) : npMin l ≤ x := by
  cases l with
  | nil => cases hx
  | cons y ys =>
    rw [npMin]
    rcases List.mem_cons.mp hx with h | h
    · subst h; exact foldl_min_le_init ys x
    · exact foldl_min_le_mem ys y x h

theorem npMax_mem_le (l : List ℚ) (x : ℚ) (hx : x ∈ l) : x ≤ npMax l := by
  cases l with
  | nil => cases hx
  | cons y ys =>
    rw [npMax]
    rcases List.mem_cons.mp hx with h | h
    · subst h; exact foldl_max_init_le ys x
    · exact foldl_max_mem_le ys y x h

theorem foldl_min_mem (l : List ℚ) : ∀ a : ℚ, l.foldl min a = a ∨ l.foldl min a ∈ l := by
  induction l with
  | nil => intro a; exact Or.inl rfl
  | cons x xs ih =>
    intro a
    rcases ih (min a x) with h | h
    · rcases min_choice a x with hc | hc
      · left; rw [List.foldl_cons, h, hc]
      · right; rw [List.mem_cons]; left; rw [List.foldl_cons, h, hc]
    · right; exact List.mem_cons_of_mem x h

theorem foldl_max_mem (l : List ℚ) : ∀ a : ℚ, l.foldl max a = a ∨ l.foldl max a ∈ l := by
  induction l with
  | nil => intro a; exact Or.inl rfl
  | cons x xs ih =>
    intro a
    rcases ih (max a x) with h | h
    · rcases max_choice a x with hc | hc
      · left; rw [List.foldl_cons, h, hc]
      · right; rw [List.mem_cons]; left; rw [List.foldl_cons, h, hc]
    · right; exact List.mem_cons_of_mem x h

theorem npMin_mem (l : List ℚ) (h : l ≠ []) : npMin l ∈ l := by
  cases l with
  | nil => exact absurd rfl h
  | cons x xs =>
    rw [npMin]
    rcases foldl_min_mem xs x with h1 | h1
    · rw [h1]; exact List.mem_cons_self x xs
    · exact List.mem_cons_of_mem x h1

theorem npMax_mem (l : List ℚ) (h : l ≠ []) : npMax l ∈ l := by
  cases l with
  | nil => exact absurd rfl h
  | cons x xs =>
    rw [npMax]
    rcases foldl_max_mem xs x with h1 | h1
    · rw [h1]; exact List.mem_cons_self x xs
    · exact List.mem_cons_of_mem x h1

/-! ## Claims -/

/-- Claim C1, counterexample: the spec asserts one fixed partition of status
codes for every fit operation (positive codes warn, code 10 raises with no
result stored).  The code disagrees twice over: the univariate fit warns
and stores the result on `ier == 10`, and `RectBivariateSpline` raises on
the positive code `ier == 1`. -/
theorem C1_counterexample :
    univariateIerOutcome 10 = FitOutcome.warnAccept ∧
    rectBivariateIerOutcome 1 = FitOutcome.raiseErr ∧
    ¬ claimedStatusPartition univariateIerOutcome ∧
    ¬ claimedStatusPartition rectBivariateIerOutcome := by
  refine ⟨by decide, by decide, ?_, ?_⟩
  · intro h
    exact absurd h.2.2 (by decide)
  · intro h
    exact absurd (h.2.1 1 (by decide) (by decide)) (by decide)

/-- Claim C1 as amended: codes 0, -1, -2 are accepted silently by every fit
operation; the handling of every other code is class-specific rather than
one fixed partition: the univariate fits and the scattered bivariate fits
(`SmoothBivariateSpline`, `LSQBivariateSpline`) warn and store the result
for every remaining code, 10 included; `RectBivariateSpline`,
`SmoothSphereBivariateSpline` and `RectSphereBivariateSpline` raise for
every remaining code, positive codes included; `LSQSphereBivariateSpline`
warns for codes below -2 and raises for the rest. -/
theorem C1_amended_theorem (ier : Int) :
    ((ier = 0 ∨ ier = -1 ∨ ier = -2) →
      univariateIerOutcome ier = FitOutcome.accept ∧
      smoothBivariateIerOutcome ier = FitOutcome.accept ∧
      lsqBivariateIerOutcome ier = FitOutcome.accept ∧
      rectBivariateIerOutcome ier = FitOutcome.accept ∧
      smoothSphereIerOutcome ier = FitOutcome.accept ∧
      lsqSphereIerOutcome ier = FitOutcome.accept ∧
      rectSphereIerOutcome ier = FitOutcome.accept) ∧
    (¬(ier = 0 ∨ ier = -1 ∨ ier = -2) →
      univariateIerOutcome ier = FitOutcome.warnAccept ∧
      smoothBivariateIerOutcome ier = FitOutcome.warnAccept ∧
      lsqBivariateIerOutcome ier = FitOutcome.warnAccept ∧
      rectBivariateIerOutcome ier = FitOutcome.raiseErr ∧
      smoothSphereIerOutcome ier = FitOutcome.raiseErr ∧
      rectSphereIerOutcome ier = FitOutcome.raiseErr ∧
      (ier < -2 → lsqSphereIerOutcome ier = FitOutcome.warnAccept) ∧
      (-2 ≤ ier → lsqSphereIerOutcome ier = FitOutcome.raiseErr)) := by
  constructor
  · rintro (h | h | h) <;> subst h <;> exact ⟨by decide, by decide, by decide,
      by decide, by decide, by decide, by decide⟩
  · intro h
    push_neg at h
    obtain ⟨h0, h1, h2⟩ := h
    have hnot : ¬ (ier = 0 ∨ ier = -1 ∨ ier = -2) := by
      rintro (hc | hc | hc) <;> simp_all
    refine ⟨?_, ?_, ?_, ?_, ?_, ?_, ?_, ?_⟩
    · simp [univariateIerOutcome, h0, h1, h2]
    · simp [smoothBivariateIerOutcome, hnot]
    · simp [lsqBivariateIerOutcome, hnot]
    · simp [rectBivariateIerOutcome, hnot]
    · simp [smoothSphereIerOutcome, hnot]
    · simp [rectSphereIerOutcome, hnot]
    · intro hlt; simp [lsqSphereIerOutcome, hlt]
    · intro hge
      have hnlt : ¬ ier < -2 := by omega
      simp [lsqSphereIerOutcome, hnlt, hnot]

/-- Witness for `C1_amended_theorem` at the concrete status code 0. -/
theorem C1_amended_witness : univariateIerOutcome 0 = FitOutcome.accept :=
  ((C1_amended_theorem 0).1 (Or.inl rfl)).1

/-- Claim C2, counterexample: the spec asserts at most one solver call per
operation, but when `fpcurf0` reports `ier == 1` (nest too small) the
univariate constructor immediately re-invokes the solver through
`_reset_nest` with `nest` raised to its maximum bound: two calls. -/
theorem C2_counterexample :
    countSolverCalls (univariateSplineInitTrace true 1) = 2 ∧
    ¬ countSolverCalls (univariateSplineInitTrace true 1) ≤ 1 := by decide

/-- Claim C2 as amended: every construction or smoothing-factor adjustment
invokes the external solver at most twice, and a second call happens in
exactly two situations: a univariate fit whose first call reports
`ier == 1` (nest too small; the retry runs with `nest` at its maximum
bound), and a scattered bivariate fit whose first call reports `ier > 10`
(workspace too small; the retry runs with `lwrk2 = ier`).  All other
operations call the solver at most once. -/
theorem C2_amended_theorem (extOk knotsOk fpchecOk : Bool) (ier1 : Int) (sStored : ℚ) :
    countSolverCalls (univariateSplineInitTrace extOk ier1) ≤ 2 ∧
    (countSolverCalls (univariateSplineInitTrace extOk ier1) = 2 ↔
      extOk = true ∧ ier1 = 1) ∧
    countSolverCalls (smoothBivariateInitTrace ier1) ≤ 2 ∧
    (countSolverCalls (smoothBivariateInitTrace ier1) = 2 ↔ ier1 > 10) ∧
    countSolverCalls (setSmoothingFactorTrace sStored ier1) ≤ 2 ∧
    (countSolverCalls (setSmoothingFactorTrace sStored ier1) = 2 ↔
      sStored ≠ -1 ∧ ier1 = 1) ∧
    countSolverCalls (interpolatedSplineInitTrace extOk) ≤ 1 ∧
    countSolverCalls (rectBivariateInitTrace extOk ier1) ≤ 1 ∧
    countSolverCalls (lsqSplineInitTrace knotsOk fpchecOk extOk) ≤ 1 := by
  refine ⟨?_, ?_, ?_, ?_, ?_, ?_, ?_, ?_, ?_⟩
  · unfold univariateSplineInitTrace
    split_ifs <;> simp [countSolverCalls]
  · unfold univariateSplineInitTrace
    split_ifs with ha hb <;> simp_all [countSolverCalls]
  · unfold smoothBivariateInitTrace
    split_ifs <;> simp [countSolverCalls]
  · unfold smoothBivariateInitTrace
    split_ifs with ha <;> simp_all [countSolverCalls]
  · unfold setSmoothingFactorTrace
    split_ifs <;> simp [countSolverCalls]
  · unfold setSmoothingFactorTrace
    split_ifs with ha hb <;> simp_all [countSolverCalls]
  · unfold interpolatedSplineInitTrace
    split_ifs <;> simp [countSolverCalls]
  · unfold rectBivariateInitTrace
    split_ifs <;> simp [countSolverCalls]
  · unfold lsqSplineInitTrace
    split_ifs <;> simp [countSolverCalls]

/-- Witness for `C2_amended_theorem` at concrete inputs. -/
theorem C2_amended_witness :
    countSolverCalls (univariateSplineInitTrace true 0) ≤ 2 :=
  (C2_amended_theorem true true true 0 5).1

/-- Claim C3, counterexample: in `InterpolatedUnivariateSpline.__init__` the
extrapolation-mode validation runs last, so an unrecognized `ext` value
raises only after the solver has been called and the fit stored on the
object, not before the solver call as the spec asserts. -/
theorem C3_counterexample :
    interpolatedSplineInitTrace false =
      [Event.solverCall, Event.dataStored, Event.raised] ∧
    ¬ raisesCleanly (interpolatedSplineInitTrace false) := by
  constructor
  · decide
  · intro h
    exact absurd (List.mem_cons_self Event.solverCall _) h.2.1

/-- Claim C3 as amended: failing shape, ordering, domain or knot checks
raise before any solver call with nothing stored, in every constructor, and
in `UnivariateSpline` the extrapolation-mode check also precedes the solver
call; but in `InterpolatedUnivariateSpline` and `LSQUnivariateSpline` the
extrapolation-mode check runs only after the solver call and after the fit
result has been stored, so an unrecognized mode there raises with the fit
already on the object. -/
theorem C3_amended_theorem (ier : Int) (fpchecOk extOk : Bool) :
    univariateSplineInitTrace false ier = [Event.raised] ∧
    rectBivariateInitTrace false ier = [Event.raised] ∧
    lsqSplineInitTrace false fpchecOk extOk = [Event.raised] ∧
    lsqSplineInitTrace true false extOk = [Event.fpchecCall, Event.raised] ∧
    raisesCleanly (univariateSplineInitTrace false ier) ∧
    raisesCleanly (rectBivariateInitTrace false ier) ∧
    raisesCleanly (lsqSplineInitTrace true false extOk) ∧
    interpolatedSplineInitTrace false =
      [Event.solverCall, Event.dataStored, Event.raised] ∧
    lsqSplineInitTrace true true false =
      [Event.fpchecCall, Event.solverCall, Event.dataStored, Event.raised] := by
  refine ⟨?_, ?_, ?_, ?_, ?_, ?_, ?_, by decide, by decide⟩
  · simp [univariateSplineInitTrace]
  · simp [rectBivariateInitTrace]
  · simp [lsqSplineInitTrace]
  · simp [lsqSplineInitTrace]
  · simp [univariateSplineInitTrace, raisesCleanly]
  · simp [rectBivariateInitTrace, raisesCleanly]
  · simp [lsqSplineInitTrace, raisesCleanly]

/-- Witness for `C3_amended_theorem` at concrete inputs. -/
theorem C3_amended_witness :
    univariateSplineInitTrace false 0 = [Event.raised] :=
  (C3_amended_theorem 0 true true).1

/-- Claim C4: extrapolation-mode resolution goes through the one fixed
table `_extrap_modes`, mapping the integer codes 0-3 and the strings
extrapolate/zeros/raise/const to the canonical codes 0-3; every other key
misses the table and turns into `ValueError`; the construction-time lookup
and the evaluation-time override use the same table and agree. -/
theorem C4_extrap_table_theorem :
    _extrap_modes (ExtKey.intKey 0) = some 0 ∧
    _extrap_modes (ExtKey.strKey "extrapolate") = some 0 ∧
    _extrap_modes (ExtKey.intKey 1) = some 1 ∧
    _extrap_modes (ExtKey.strKey "zeros") = some 1 ∧
    _extrap_modes (ExtKey.intKey 2) = some 2 ∧
    _extrap_modes (ExtKey.strKey "raise") = some 2 ∧
    _extrap_modes (ExtKey.intKey 3) = some 3 ∧
    _extrap_modes (ExtKey.strKey "const") = some 3 ∧
    (∀ n : Int, n ≠ 0 → n ≠ 1 → n ≠ 2 → n ≠ 3 →
      _extrap_modes (ExtKey.intKey n) = none) ∧
    (∀ s : String, s ≠ "extrapolate" → s ≠ "zeros" → s ≠ "raise" → s ≠ "const" →
      _extrap_modes (ExtKey.strKey s) = none) ∧
    (∀ (selfExt : Nat) (e : ExtKey), resolveExtCall selfExt (some e) = resolveExtInit e) ∧
    (∀ e : ExtKey, ∀ v : Nat, resolveExtInit e = Except.ok v ↔ _extrap_modes e = some v) ∧
    (∀ e : ExtKey, _extrap_modes e = none →
      resolveExtInit e = Except.error (PyError.valueError "Unknown extrapolation mode")) := by
  refine ⟨rfl, rfl, rfl, rfl, rfl, rfl, rfl, rfl, ?_, ?_, ?_, ?_, ?_⟩
  · intro n h0 h1 h2 h3
    simp [_extrap_modes, h0, h1, h2, h3]
  · intro s h0 h1 h2 h3
    simp [_extrap_modes, h0, h1, h2, h3]
  · intro selfExt e
    rw [resolveExtCall, resolveExtInit]
  · intro e v
    rw [resolveExtInit]
    cases _extrap_modes e <;> simp
  · intro e h
    rw [resolveExtInit, h]

/-- Witness for `C4_extrap_table_theorem` at the concrete missing key 7. -/
theorem C4_witness : _extrap_modes (ExtKey.intKey 7) = none :=
  C4_extrap_table_theorem.2.2.2.2.2.2.2.2.1 7 (by decide) (by decide) (by decide)
    (by decide)

/-- Claim C5, counterexample: the spec asserts that `get_knots` strips the
boundary padding and returns exactly the interior knots.  For the LSQ
spline of degree 1 with interior knots `[5]` on `[0, 10]`, the assembled
knot vector is `[0, 0, 5, 10, 10]` and `get_knots` (which strips only `k`
knots per side, not `k+1`) returns `[0, 5, 10]`, not `[5]`. -/
theorem C5_counterexample :
    lsqKnots 0 10 [5] 1 = [0, 0, 5, 10, 10] ∧
    get_knots (lsqKnots 0 10 [5] 1) 1 (lsqKnots 0 10 [5] 1).length = [0, 5, 10] ∧
    get_knots (lsqKnots 0 10 [5] 1) 1 (lsqKnots 0 10 [5] 1).length ≠ [5] := by
  refine ⟨by decide, by decide, by decide⟩

/-- Claim C5 as amended: after the LSQ constructor's ordering check passes,
the assembled knot vector is non-decreasing and carries `k+1` repeated
boundary knots on each side; the number of coefficients exposed by
`get_coeffs` equals `n - k - 1` with `n` the total knot count; but
`get_knots` strips only `k` knots per side, so it returns the interior
knots together with one copy of each boundary knot, not the interior knots
alone. -/
theorem C5_amended_theorem (xb xe : ℚ) (t : List ℚ) (k : Nat) (c : List ℚ)
    (hcheck : lsqKnotOrderCheck (lsqKnots xb xe t k) k (lsqKnots xb xe t k).length = true)
    (hc : (lsqKnots xb xe t k).length - k - 1 ≤ c.length) :
    List.Chain' (· ≤ ·) (lsqKnots xb xe t k) ∧
    (lsqKnots xb xe t k).take (k+1) = List.replicate (k+1) xb ∧
    (lsqKnots xb xe t k).drop (k+1+t.length) = List.replicate (k+1) xe ∧
    get_knots (lsqKnots xb xe t k) k (lsqKnots xb xe t k).length = xb :: (t ++ [xe]) ∧
    (get_coeffs c k (lsqKnots xb xe t k).length).length =
      (lsqKnots xb xe t k).length - k - 1 := by
  have hslice := lsqKnots_get_knots xb xe t k
  have hchain : List.Chain' (· < ·) (xb :: (t ++ [xe])) := by
    rw [lsqKnotOrderCheck] at hcheck
    have := pairwiseIncreasing_chain' _ hcheck
    rw [get_knots] at hslice
    rw [hslice] at this
    exact this
  refine ⟨lsqKnots_chain_le xb xe t k hchain, ?_, ?_, hslice, ?_⟩
  · rw [lsqKnots, List.append_assoc]
    exact List.take_left' (by rw [List.length_replicate])
  · rw [lsqKnots]
    exact List.drop_left' (by simp)
  · rw [get_coeffs, List.length_take]
    omega

/-- Witness for `C5_amended_theorem` at the concrete degree-1 LSQ spline on
`[0, 10]` with interior knots `[5]`. -/
theorem C5_witness :
    get_knots (lsqKnots 0 10 [5] 1) 1 (lsqKnots 0 10 [5] 1).length =
      0 :: ([5] ++ [10]) :=
  (C5_amended_theorem 0 10 [5] 1 [1, 2, 3] (by decide) (by decide)).2.2.2.1

/-- Claim C6, counterexample: the spec asserts that every call to
`set_smoothing_factor` re-invokes the solver and replaces the stored
representation.  On an LSQ spline with fixed knots (stored `s == -1`) the
method only warns: the representation is returned untouched and the trace
contains no solver call and no store. -/
theorem C6_counterexample :
    set_smoothing_factor lsqFitData 5 (fun _ _ => dummyFitData) id = lsqFitData ∧
    setSmoothingFactorTrace (-1) 0 = [] ∧
    countSolverCalls (setSmoothingFactorTrace (-1) 0) = 0 := by
  refine ⟨by decide, by decide, by decide⟩

/-- Claim C6 as amended: the query and evaluation methods are pure in the
stored fit representation (`rootsOp` returns the state unchanged), and
`set_smoothing_factor` is the one mutation entry point; it re-invokes the
solver and replaces the representation in place exactly when the stored
smoothing factor is not the LSQ sentinel `-1`; for a fixed-knot LSQ spline
it warns and leaves the representation unchanged without any solver
call. -/
theorem C6_amended_theorem (d : FitData) (s : ℚ)
    (fpcurf1 : FitData → ℚ → FitData) (resetNest : FitData → FitData)
    (ier1 : Int) (z : List ℚ) (m : Nat) (ier : Int) :
    (d.s = -1 →
      set_smoothing_factor d s fpcurf1 resetNest = d ∧
      setSmoothingFactorTrace d.s ier1 = []) ∧
    (d.s ≠ -1 →
      (set_smoothing_factor d s fpcurf1 resetNest = fpcurf1 d s ∨
       set_smoothing_factor d s fpcurf1 resetNest = resetNest (fpcurf1 d s)) ∧
      Event.solverCall ∈ setSmoothingFactorTrace d.s ier1 ∧
      Event.dataStored ∈ setSmoothingFactorTrace d.s ier1) ∧
    (rootsOp d z m ier).2 = d := by
  refine ⟨?_, ?_, rfl⟩
  · intro h
    constructor
    · rw [set_smoothing_factor, if_pos h]
    · rw [setSmoothingFactorTrace, if_pos h]
  · intro h
    refine ⟨?_, ?_, ?_⟩
    · rw [set_smoothing_factor, if_neg h]
      by_cases h1 : (fpcurf1 d s).ier = 1
      · right; simp [h1]
      · left; simp [h1]
    · rw [setSmoothingFactorTrace, if_neg h]
      split_ifs <;> simp
    · rw [setSmoothingFactorTrace, if_neg h]
      split_ifs <;> simp

/-- Witness for `C6_amended_theorem` on the concrete fixed-knot LSQ data. -/
theorem C6_amended_witness :
    set_smoothing_factor lsqFitData 7 (fun _ _ => dummyFitData) id = lsqFitData :=
  ((C6_amended_theorem lsqFitData 7 (fun _ _ => dummyFitData) id 0 [] 0 0).1 rfl).1

/-- Claim C7: after a univariate fit, `_reset_class` re-tags the object
from the status code: -1 to `InterpolatedUnivariateSpline`, -2 and 1 to
`LSQUnivariateSpline`, 0 leaves the class unchanged; and `_set_class`
re-tags only the three known univariate spline classes, so an unknown
subclass is never re-tagged whatever the code. -/
theorem C7_retag_theorem :
    (∀ c : SplineClass, c ≠ SplineClass.unknownSubclass →
      _reset_class (-1) c = SplineClass.interpolatedUnivariateSpline ∧
      _reset_class (-2) c = SplineClass.lsqUnivariateSpline ∧
      _reset_class 1 c = SplineClass.lsqUnivariateSpline ∧
      _reset_class 0 c = c) ∧
    (∀ ier : Int, _reset_class ier SplineClass.unknownSubclass =
      SplineClass.unknownSubclass) := by
  constructor
  · intro c hc
    cases c <;> first
      | exact absurd rfl hc
      | exact ⟨by decide, by decide, by decide, by decide⟩
  · intro ier
    rw [_reset_class]
    split_ifs <;> rfl

/-- Witness for `C7_retag_theorem` on the concrete class
`UnivariateSpline` and status code -1. -/
theorem C7_witness :
    _reset_class (-1) SplineClass.univariateSpline =
      SplineClass.interpolatedUnivariateSpline :=
  (C7_retag_theorem.1 SplineClass.univariateSpline (by decide)).1

/-- Claim C8: evaluating at an empty input returns an empty result with no
call into the external evaluator and no exception.  The univariate call
short-circuits before the extrapolation mode is even resolved, so the
result is empty for every mode, `raise` and unrecognized keys included;
the bivariate grid call returns the zero matrix of shape
`(x.size, y.size)`; the bivariate pointwise call returns zeros of the
broadcast shape (which is necessarily empty when an input is empty and
broadcasting succeeds). -/
theorem C8_empty_eval_theorem :
    (∀ (selfExt : Nat) (ext : Option ExtKey) (splev : List ℚ → Nat → List ℚ),
      univariateCall selfExt ext [] splev = (Except.ok [], 0)) ∧
    (∀ (x y : List ℚ) (ev : List ℚ → List ℚ → List (List ℚ)),
      x = [] ∨ y = [] →
      bivariateCallGrid x y ev =
        (Except.ok (List.replicate x.length (List.replicate y.length 0)), 0)) ∧
    (∀ (x y : List ℚ) (ev : List ℚ → List ℚ → List ℚ) (L : Nat),
      broadcastLen x.length y.length = some L →
      (x = [] ∨ y = []) →
      L = 0 ∧ bivariateCallPoint x y ev = (Except.ok [], 0)) := by
  refine ⟨?_, ?_, ?_⟩
  · intro selfExt ext splev
    rfl
  · intro x y ev h
    have hlen : x.length = 0 ∨ y.length = 0 := by
      rcases h with h | h <;> simp [h]
    rw [bivariateCallGrid, if_pos hlen]
  · intro x y ev L hb h
    have hlen : x.length = 0 ∨ y.length = 0 := by
      rcases h with h | h <;> simp [h]
    have hL : L = 0 := by
      rcases hlen with h0 | h0 <;> rw [broadcastLen, h0] at hb <;>
        split_ifs at hb <;> simp_all
    refine ⟨hL, ?_⟩
    rw [bivariateCallPoint, hb, hL]
    rfl

/-- Witness for `C8_empty_eval_theorem` on a concrete empty grid call. -/
theorem C8_witness :
    bivariateCallGrid ([] : List ℚ) [1, 2] (fun _ _ => [[3]]) = (Except.ok [], 0) :=
  C8_empty_eval_theorem.2.1 [] [1, 2] (fun _ _ => [[3]]) (Or.inl rfl)

/-- Claim C9: `roots` supports only cubic splines: any degree other than 3
raises `NotImplementedError`; for degree 3 it returns the reported zeros
truncated to the reported count `m`, raising `ValueError` when the external
root finder signals a nonzero `ier`; and the fit data on the object is
unchanged in every case. -/
theorem C9_roots_theorem (d : FitData) (z : List ℚ) (m : Nat) (ier : Int) :
    (d.k ≠ 3 → ∃ msg, (rootsOp d z m ier).1 =
      Except.error (PyError.notImplementedError msg)) ∧
    (d.k = 3 → ier = 0 → (rootsOp d z m ier).1 = Except.ok (z.take m)) ∧
    (d.k = 3 → ier ≠ 0 → ∃ msg, (rootsOp d z m ier).1 =
      Except.error (PyError.valueError msg)) ∧
    (rootsOp d z m ier).2 = d := by
  refine ⟨?_, ?_, ?_, rfl⟩
  · intro h
    exact ⟨_, by rw [rootsOp, roots, if_neg h]⟩
  · intro h h0
    rw [rootsOp, roots, if_pos h, if_pos h0]
  · intro h h0
    exact ⟨_, by rw [rootsOp, roots, if_pos h, if_neg h0]⟩

/-- Witness for `C9_roots_theorem` on concrete cubic-spline data. -/
theorem C9_witness :
    (rootsOp dummyFitData [1, 2, 3] 2 0).1 = Except.ok ([1, 2, 3].take 2) :=
  (C9_roots_theorem dummyFitData [1, 2, 3] 2 0).2.1 rfl rfl

/-- Claim C10: the spherical evaluation raises `ValueError` before
delegating whenever some requested theta lies outside `[0, pi]` or (with
theta in bounds) some phi lies outside `[0, 2*pi]`; each bounds check is
skipped entirely on an empty input array, so an empty evaluation never
raises out of bounds and delegates to the base evaluator. -/
theorem C10_sphere_bounds_theorem (piV : ℚ) (theta phi : List ℚ) :
    ((∃ a ∈ theta, a < 0 ∨ piV < a) →
      sphereCall piV theta phi =
        Except.error (PyError.valueError "requested theta out of bounds.")) ∧
    ((∀ a ∈ theta, 0 ≤ a ∧ a ≤ piV) → (∃ b ∈ phi, b < 0 ∨ 2 * piV < b) →
      sphereCall piV theta phi =
        Except.error (PyError.valueError "requested phi out of bounds.")) ∧
    (theta = [] → phi = [] → sphereCall piV theta phi = Except.ok ()) ∧
    ((∀ a ∈ theta, 0 ≤ a ∧ a ≤ piV) → (∀ b ∈ phi, 0 ≤ b ∧ b ≤ 2 * piV) →
      sphereCall piV theta phi = Except.ok ()) := by
  have hthetaOk : (∀ a ∈ theta, 0 ≤ a ∧ a ≤ piV) →
      ¬ (0 < theta.length ∧ (npMin theta < 0 ∨ npMax theta > piV)) := by
    intro hall hbad
    obtain ⟨hpos, hbad⟩ := hbad
    have hne : theta ≠ [] := by
      intro he; rw [he] at hpos; exact absurd hpos (by decide)
    rcases hbad with hlt | hgt
    · exact absurd hlt (not_lt.mpr (hall (npMin theta) (npMin_mem theta hne)).1)
    · exact absurd hgt (not_lt.mpr (hall (npMax theta) (npMax_mem theta hne)).2)
  have hphiOk : (∀ b ∈ phi, 0 ≤ b ∧ b ≤ 2 * piV) →
      ¬ (0 < phi.length ∧ (npMin phi < 0 ∨ npMax phi > 2 * piV)) := by
    intro hall hbad
    obtain ⟨hpos, hbad⟩ := hbad
    have hne : phi ≠ [] := by
      intro he; rw [he] at hpos; exact absurd hpos (by decide)
    rcases hbad with hlt | hgt
    · exact absurd hlt (not_lt.mpr (hall (npMin phi) (npMin_mem phi hne)).1)
    · exact absurd hgt (not_lt.mpr (hall (npMax phi) (npMax_mem phi hne)).2)
  refine ⟨?_, ?_, ?_, ?_⟩
  · rintro ⟨a, ha, hbad⟩
    have hpos : 0 < theta.length :=
      List.length_pos.mpr (List.ne_nil_of_mem ha)
    have hcond : 0 < theta.length ∧ (npMin theta < 0 ∨ npMax theta > piV) := by
      refine ⟨hpos, ?_⟩
      rcases hbad with h | h
      · exact Or.inl (lt_of_le_of_lt (npMin_le_mem theta a ha) h)
      · exact Or.inr (lt_of_lt_of_le h (npMax_mem_le theta a ha))
    rw [sphereCall, if_pos hcond]
  · intro hall ⟨b, hb, hbad⟩
    have hpos : 0 < phi.length :=
      List.length_pos.mpr (List.ne_nil_of_mem hb)
    have hcond : 0 < phi.length ∧ (npMin phi < 0 ∨ npMax phi > 2 * piV) := by
      refine ⟨hpos, ?_⟩
      rcases hbad with h | h
      · exact Or.inl (lt_of_le_of_lt (npMin_le_mem phi b hb) h)
      · exact Or.inr (lt_of_lt_of_le h (npMax_mem_le phi b hb))
    rw [sphereCall, if_neg (hthetaOk hall), if_pos hcond]
  · intro ht hp
    subst ht; subst hp
    rfl
  · intro hat hap
    rw [sphereCall, if_neg (hthetaOk hat), if_neg (hphiOk hap)]

/-- Witness for `C10_sphere_bounds_theorem` at the concrete out-of-bounds
request theta = 4 with pi modelled as 3. -/
theorem C10_witness :
    sphereCall 3 [4] [] =
      Except.error (PyError.valueError "requested theta out of bounds.") :=
  (C10_sphere_bounds_theorem 3 [4] []).1 ⟨4, by decide, Or.inr (by decide)⟩
